import Mathlib

/-!
Verification of the github-analyzer-agent repository against its
natural-language specification.

The file shallowly embeds:
* `src/agent/state.py` — `ContextInfo`, `CONSTANTS`, `AgentState`,
  `create_initial_state`, `update_state_status`;
* `src/utils/validators.py` — `_is_valid_github_name`,
  `GitHubURLValidator` (field validator and `model_post_init`),
  `validate_github_url`, `validate_analysis_type`, together with the parts
  of CPython's `urllib.parse.urlparse` that those functions exercise;
* the context-compression subsystem, which the repository only imports
  (`src/services/context_manager.py` is not present in the tree); it is
  modelled from the specification, section 4.

Python `int` values that are token counts, lengths or counters are
embedded as `Nat`; optional values as `Option`; functions that raise
`ValueError` as `Except String`.
-/

/-! ## Data model from `src/agent/state.py` -/

/-- `AnalysisType` enum from `state.py` (three members). -/
inductive AnalysisType where
  | SUMMARY
  | SECURITY
  | CUSTOM
deriving DecidableEq, Repr

/-- `AnalysisStatus` enum from `state.py`. -/
inductive AnalysisStatus where
  | PENDING
  | FETCHING_REPO
  | ANALYZING
  | COMPLETED
  | FAILED
deriving DecidableEq, Repr

/-- `langchain_core` message used by `state.py`: the code constructs
`HumanMessage` and imports `AIMessage`; each carries a string content. -/
inductive BaseMessage where
  | human (content : String)
  | ai (content : String)
deriving DecidableEq, Repr

/-- Content of a message. -/
def BaseMessage.contentOf : BaseMessage → String
  | .human c => c
  | .ai c => c

/-- `ContextInfo` pydantic model from `state.py`, with its field defaults
(`current_tokens=0`, `max_tokens=200000`, `summary_count=0`,
`last_summary=None`, `preserved_messages=5`). -/
structure ContextInfo where
  current_tokens : Nat := 0
  max_tokens : Nat := 200000
  summary_count : Nat := 0
  last_summary : Option String := none
  preserved_messages : Nat := 5
deriving DecidableEq, Repr

/-- `RepositoryInfo` pydantic model from `state.py`.  `Dict[str, int]` and
list fields are embedded as association lists and lists. -/
structure RepositoryInfo where
  url : String
  owner : String
  name : String
  description : Option String := none
  language : Option String := none
  languages : List (String × Nat) := []
  stars : Nat := 0
  forks : Nat := 0
  size : Nat := 0
  default_branch : String := "main"
  files_analyzed : List String := []
  security_files : List String := []
  readme_content : Option String := none
deriving DecidableEq, Repr

/-- `AnalysisResult` pydantic model from `state.py`.  The untyped
`Dict[str, Any]` entries of `findings` are embedded as association lists of
strings, and the float scores as rationals; the claims never inspect these
payloads. -/
structure AnalysisResult where
  analysis_type : AnalysisType
  status : AnalysisStatus
  summary : Option String := none
  findings : List (List (String × String)) := []
  recommendations : List String := []
  confidence_score : ℚ := 0
  processing_time : ℚ := 0
  error_message : Option String := none
deriving DecidableEq, Repr

/-- The metadata dictionary built by `create_initial_state`
(`created_at`, `repo_url`, `version`). -/
structure StateMetadata where
  created_at : String
  repo_url : String
  version : String
deriving DecidableEq, Repr

/-- `AgentState` TypedDict from `state.py`; `NotRequired` keys are
embedded as `Option` fields (a missing key is `none`). -/
structure AgentState where
  messages : List BaseMessage
  repository : Option RepositoryInfo := none
  analysis_type : Option AnalysisType := none
  custom_prompt : Option (Option String) := none
  status : Option AnalysisStatus := none
  current_step : Option String := none
  context : Option ContextInfo := none
  result : Option AnalysisResult := none
  metadata : Option StateMetadata := none
  trace_id : Option String := none
  session_id : Option String := none
deriving DecidableEq, Repr

/-- Shape of the `CONSTANTS` dictionary from `state.py`.  The float value
`0.85` is embedded as the rational it denotes in the source text. -/
structure SystemConstants where
  MAX_CONTEXT_TOKENS : Nat
  PRESERVED_MESSAGES : Nat
  DEFAULT_MODEL : String
  CONTEXT_SUMMARY_TRIGGER : ℚ
  ANALYSIS_TIMEOUT : Nat
  MAX_FILE_SIZE : Nat
  MAX_FILES_TO_ANALYZE : Nat
deriving DecidableEq, Repr

/-- `CONSTANTS` from `state.py`. -/
def CONSTANTS : SystemConstants :=
  { MAX_CONTEXT_TOKENS := 200000
    PRESERVED_MESSAGES := 5
    DEFAULT_MODEL := "gpt-4o-mini"
    CONTEXT_SUMMARY_TRIGGER := 85 / 100
    ANALYSIS_TIMEOUT := 300
    MAX_FILE_SIZE := 100000
    MAX_FILES_TO_ANALYZE := 50 }

/-- `create_initial_state` from `state.py`.  The two `uuid.uuid4()` calls
and `datetime.now().isoformat()` are nondeterministic effects; they are
passed in as the arguments `uuidTrace`, `uuidSession` and `now` (the second
uuid is consumed only when `session_id` is `None`, mirroring
`session_id or str(uuid.uuid4())`). -/
def create_initial_state (uuidTrace uuidSession now : String)
    (repo_url : String) (analysis_type : AnalysisType)
    (custom_prompt : Option String := none)
    (session_id : Option String := none) : AgentState :=
  { messages := [BaseMessage.human ("مرحباً! أريد تحليل مستودع GitHub: " ++ repo_url)]
    analysis_type := some analysis_type
    custom_prompt := some custom_prompt
    status := some AnalysisStatus.PENDING
    current_step := some "initialization"
    context := some {}
    metadata := some { created_at := now, repo_url := repo_url, version := "1.0.0" }
    trace_id := some uuidTrace
    session_id := some (session_id.getD uuidSession) }

/-- `update_state_status` from `state.py`: sets `state["status"]`
unconditionally and `state["current_step"]` only when `step` is truthy
(a non-empty string). -/
def update_state_status (state : AgentState) (new_status : AnalysisStatus)
    (step : String := "") : AgentState :=
  let s := { state with status := some new_status }
  if step ≠ "" then { s with current_step := some step } else s

/-! ## Validators from `src/utils/validators.py`

The URL handling follows CPython's `urllib.parse.urlsplit` and
`urlparse` in the parts the validators exercise: leading
WHATWG-C0-control-or-space stripping, removal of every tab, CR and LF,
scheme and netloc extraction, fragment and query splitting, and the
params split performed by `urlparse` for schemes in `uses_params`.
ASCII case mapping is used for `.lower()` (the validator only compares
against ASCII literals). -/

/-- Python whitespace as stripped by `str.strip()` (the code points with
the Unicode White_Space property). -/
def pyIsSpaceChar (c : Char) : Bool :=
  (0x09 ≤ c.val && c.val ≤ 0x0D) || (0x1C ≤ c.val && c.val ≤ 0x1F) ||
  c.val == 0x20 || c.val == 0x85 || c.val == 0xA0 || c.val == 0x1680 ||
  (0x2000 ≤ c.val && c.val ≤ 0x200A) || c.val == 0x2028 || c.val == 0x2029 ||
  c.val == 0x202F || c.val == 0x205F || c.val == 0x3000

/-- Python `str.strip()`. -/
def pyStrip (s : String) : String :=
  String.mk (((s.data.dropWhile pyIsSpaceChar).reverse.dropWhile pyIsSpaceChar).reverse)

/-- ASCII lower-casing, as `str.lower()` acts on ASCII text. -/
def pyLowerAscii (s : String) : String :=
  String.mk (s.data.map Char.toLower)

/-- Characters allowed in a URL scheme after the first
(`scheme_chars` in `urllib.parse`). -/
def isSchemeChar (c : Char) : Bool :=
  c.isAlpha || c.isDigit || c == '+' || c == '-' || c == '.'

/-- Scheme extraction step of `urlsplit`: a scheme is recognised when a
colon occurs at a positive index, the first character is an ASCII letter
and everything before the colon is a scheme character; the scheme is
lower-cased and the remainder follows the colon. -/
def schemeSplit (cs : List Char) : String × List Char :=
  let i := cs.findIdx (· == ':')
  if i < cs.length then
    if 0 < i && (match cs with | c :: _ => c.isAlpha | [] => false) &&
        (cs.take i).all isSchemeChar then
      (String.mk ((cs.take i).map Char.toLower), cs.drop (i + 1))
    else ("", cs)
  else ("", cs)

/-- Netloc extraction step of `urlsplit`: when the remainder starts with
two slashes, the netloc runs to the first of `/`, `?`, `#`; an unmatched
square bracket raises `ValueError("Invalid IPv6 URL")`. -/
def netlocSplit (cs : List Char) : Except String (String × List Char) :=
  match cs with
  | '/' :: '/' :: rest =>
    let n := rest.findIdx (fun c => c == '/' || c == '?' || c == '#')
    let netloc := rest.take n
    if (netloc.contains '[' && !netloc.contains ']') ||
       (netloc.contains ']' && !netloc.contains '[') then
      Except.error "Invalid IPv6 URL"
    else Except.ok (String.mk netloc, rest.drop n)
  | _ => Except.ok ("", cs)

/-- Fragment splitting of `urlsplit` (first `#`; fragments allowed, as the
validators call `urlparse` with defaults). -/
def fragmentSplit (cs : List Char) : List Char × String :=
  if cs.contains '#' then
    let i := cs.findIdx (· == '#')
    (cs.take i, String.mk (cs.drop (i + 1)))
  else (cs, "")

/-- Query splitting of `urlsplit` (first `?`, after the fragment split). -/
def querySplit (cs : List Char) : List Char × String :=
  if cs.contains '?' then
    let i := cs.findIdx (· == '?')
    (cs.take i, String.mk (cs.drop (i + 1)))
  else (cs, "")

/-- Index of the last occurrence of `c`, or `none`. -/
def lastIdxOf (cs : List Char) (c : Char) : Option Nat :=
  if cs.reverse.contains c then
    some (cs.length - 1 - cs.reverse.findIdx (· == c))
  else none

/-- First index `≥ start` holding `c`, or `none`
(Python `str.find(c, start)`). -/
def findIdxFrom (cs : List Char) (c : Char) (start : Nat) : Option Nat :=
  if (cs.drop start).contains c then
    some (start + (cs.drop start).findIdx (· == c))
  else none

/-- `urllib.parse._splitparams` applied to the path component: with a
slash present, only a semicolon at or after the last slash splits params;
otherwise the first semicolon does.  Callers guard on `';' ∈ path`. -/
def splitParamsPath (cs : List Char) : List Char × String :=
  if cs.contains '/' then
    match lastIdxOf cs '/' with
    | some r =>
      match findIdxFrom cs ';' r with
      | some j => (cs.take j, String.mk (cs.drop (j + 1)))
      | none => (cs, "")
    | none => (cs, "")
  else
    let j := cs.findIdx (· == ';')
    (cs.take j, String.mk (cs.drop (j + 1)))

/-- `uses_params` list from `urllib.parse`. -/
def uses_params : List String :=
  ["", "ftp", "hdl", "prospero", "http", "imap", "https", "shttp",
   "rtsp", "rtspu", "sip", "sips", "mms", "sftp", "tel"]

/-- Result of `urlparse` (named tuple components the validators use). -/
structure UrlParseResult where
  scheme : String
  netloc : String
  path : String
  params : String
  query : String
  fragment : String
deriving DecidableEq, Repr

/-- `urllib.parse.urlparse`: `urlsplit` (leading C0-control-or-space
stripped, every tab/CR/LF removed, then scheme, netloc, fragment, query)
followed by the params split for schemes in `uses_params`. -/
def pyUrlparse (url : String) : Except String UrlParseResult :=
  let cs0 := (url.data.dropWhile fun c => decide (c.val ≤ 0x20)).filter
    fun c => !(c == '\t' || c == '\r' || c == '\n')
  let sc := schemeSplit cs0
  match netlocSplit sc.2 with
  | Except.error e => Except.error e
  | Except.ok nl =>
    let fr := fragmentSplit nl.2
    let qu := querySplit fr.1
    let pp :=
      if uses_params.contains sc.1 && qu.1.contains ';' then splitParamsPath qu.1
      else (qu.1, "")
    Except.ok
      { scheme := sc.1, netloc := nl.1, path := String.mk pp.1
        params := pp.2, query := qu.2, fragment := fr.2 }

/-- `[part for part in parsed.path.split('/') if part]`. -/
def splitSlashAux (acc : List Char) : List Char → List (List Char)
  | [] => [acc.reverse]
  | '/' :: rest => acc.reverse :: splitSlashAux [] rest
  | c :: rest => splitSlashAux (c :: acc) rest

/-- Non-empty segments of a path split on `/`. -/
def splitPath (p : String) : List String :=
  ((splitSlashAux [] p.data).map String.mk).filter (fun x => x ≠ "")

/-- ASCII alphanumeric. -/
def isAlnumAscii (c : Char) : Bool := c.isAlpha || c.isDigit

/-- Core of the regex `[a-zA-Z0-9]([a-zA-Z0-9-]*[a-zA-Z0-9])?` anchored at
both ends: non-empty, first and last alphanumeric, interior alphanumeric
or hyphen. -/
def nameCore (cs : List Char) : Bool :=
  match cs with
  | [] => false
  | c :: rest =>
    isAlnumAscii c &&
      (match rest.getLast? with
       | none => true
       | some l => isAlnumAscii l && rest.all (fun x => isAlnumAscii x || x == '-'))

/-- Python `re.match` of the name pattern: the final `$` also matches just
before one trailing newline. -/
def reMatchGithubName (s : String) : Bool :=
  nameCore s.data ||
    (match s.data.reverse with
     | '\n' :: rest => nameCore rest.reverse
     | _ => false)

/-- Two consecutive hyphens occur (`'--' in name`). -/
def hasDoubleHyphen : List Char → Bool
  | a :: b :: rest => (a == '-' && b == '-') || hasDoubleHyphen (b :: rest)
  | _ => false

/-- `_is_valid_github_name` from `validators.py`. -/
def is_valid_github_name (name : String) : Bool :=
  if name = "" || name.length > 39 then false
  else if !reMatchGithubName name then false
  else if hasDoubleHyphen name.data then false
  else true

/-- `repo[:-4]` when `repo.endswith('.git')`. -/
def gitStrip (repo : String) : String :=
  match repo.data.reverse with
  | 't' :: 'i' :: 'g' :: '.' :: rest => String.mk rest.reverse
  | _ => repo

/-- The `validate_github_url` field validator of `GitHubURLValidator`:
rejects the empty string, parses the stripped URL, requires a github.com
netloc, at least two path segments, and valid owner and repo names (repo
with the `.git` suffix removed).  The non-HTTPS case only logs a warning. -/
def fieldValidatorGithubUrl (v : String) : Except String Unit :=
  if v = "" then Except.error "URL cannot be empty"
  else
    match pyUrlparse (pyStrip v) with
    | Except.error e => Except.error e
    | Except.ok parsed =>
      if !(["github.com", "www.github.com"].contains (pyLowerAscii parsed.netloc)) then
        Except.error "URL must be from github.com"
      else
        match splitPath parsed.path with
        | owner :: repo0 :: _ =>
          if !is_valid_github_name owner then
            Except.error ("Invalid GitHub username: " ++ owner)
          else if !is_valid_github_name (gitStrip repo0) then
            Except.error ("Invalid GitHub repository name: " ++ gitStrip repo0)
          else Except.ok ()
        | _ => Except.error "URL must include both owner and repository name"

/-- `model_post_init` of `GitHubURLValidator`: re-parses `self.url`
(unstripped) and takes the first two path segments, stripping `.git` from
the repo; indexing an absent segment is an `IndexError`, which
`validate_github_url` turns into a `ValueError` like every exception. -/
def modelPostInit (url : String) : Except String (String × String) :=
  match pyUrlparse url with
  | Except.error e => Except.error e
  | Except.ok parsed =>
    match splitPath parsed.path with
    | owner :: repo0 :: _ => Except.ok (owner, gitStrip repo0)
    | _ => Except.error "list index out of range"

/-- `validate_github_url` from `validators.py`: builds the pydantic model
(field validator then `model_post_init`) and returns
`(validator.url, validator.owner, validator.repo)`; any exception is
re-raised as `ValueError`. -/
def validate_github_url (url : String) : Except String (String × String × String) :=
  match fieldValidatorGithubUrl url with
  | Except.error e => Except.error ("Invalid GitHub URL: " ++ e)
  | Except.ok _ =>
    match modelPostInit url with
    | Except.error e => Except.error ("Invalid GitHub URL: " ++ e)
    | Except.ok or => Except.ok (url, or.1, or.2)

/-- Python truthiness of the returned 3-tuple: a non-empty tuple is always
truthy. -/
def pyTruthyTriple (_ : String × String × String) : Bool := true

/-- The guard in `GitHubAnalyzerAgent.analyze_repository`
(`if not validate_github_url(repo_url): raise ValueError(...)`): an
exception from validation propagates; otherwise the branch fires only when
the returned tuple is falsy. -/
def analyzeRepositoryUrlCheck (repo_url : String) :
    Except String (String × String × String) :=
  match validate_github_url repo_url with
  | Except.error e => Except.error e
  | Except.ok t =>
    if pyTruthyTriple t then Except.ok t
    else Except.error ("رابط GitHub غير صحيح: " ++ repo_url)

/-- The `valid_types` set of `validate_analysis_type`. -/
def valid_types : List String :=
  ["security", "summary", "custom", "code_review", "dependencies"]

/-- Error message raised by `validate_analysis_type`. -/
def analysisTypeError (shown : String) : String :=
  "Invalid analysis type '" ++ shown ++
    "'. Valid types: code_review, custom, dependencies, security, summary"

/-- `validate_analysis_type` from `validators.py`.  The argument is
`Option String`: the tests pass `None` as well as strings.  `None` and the
empty string are falsy, so `not analysis_type` short-circuits before
`.lower()` is reached and a `ValueError` is raised; otherwise the
lower-cased value must belong to `valid_types`. -/
def validate_analysis_type : Option String → Except String String
  | none => Except.error (analysisTypeError "None")
  | some s =>
    if s = "" || !(valid_types.contains (pyLowerAscii s)) then
      Except.error (analysisTypeError s)
    else Except.ok (pyLowerAscii s)

/-! ## Context compression subsystem

`src/services/context_manager.py` is imported by the repository
(`src/services/__init__.py`) but its code is not in the tree; the Token
Accountant and Context Compressor below are therefore modelled from the
specification (sections 2–4). -/

/-- Modelled from the spec: a conversational turn — role
(system, user, assistant or summary) and textual content, immutable once
appended (section 3). -/
structure Turn where
  role : String
  content : String
deriving DecidableEq, Repr

/-- The synthetic role carried by the turn produced by compression. -/
def summaryRole : String := "summary"

/-- Modelled from the spec: the Token Accountant's `measure` — a pure,
deterministic function of the turns; the pluggable per-turn counting
function (role and text cost plus the fixed per-turn overhead) is the
`cost` argument (section 4.1).  Named `measureTokens` because `measure`
already names the well-founded-recursion helper in the library. -/
def measureTokens (cost : Turn → Nat) (turns : List Turn) : Nat :=
  (turns.map cost).sum

/-- Modelled from the spec: the conservative fallback heuristic of the
Token Accountant — character count divided by four, rounded up
(section 4.1). -/
def heuristicCost (content : String) : Nat :=
  (content.length + 3) / 4

/-- Token cost of an `AgentState` message under the fallback heuristic. -/
def msgTokenCost (m : BaseMessage) : Nat :=
  heuristicCost m.contentOf

/-- Modelled from the spec: the Compressor's three states (section 4.2). -/
inductive CompressorMode where
  | NORMAL
  | COMPRESSING
  | DEGRADED
deriving DecidableEq, Repr

/-- Modelled from the spec: the trigger ratio configuration.  The check
`current_tokens >= trigger_ratio * max_tokens` is evaluated exactly by
cross-multiplication, `current_tokens * den >= num * max_tokens`
(the default 0.85 is `num = 85`, `den = 100`). -/
structure TriggerRatio where
  num : Nat
  den : Nat
deriving DecidableEq, Repr

/-- The trigger condition of section 4.2. -/
def triggerExceeded (ratio : TriggerRatio) (toks maxTokens : Nat) : Bool :=
  toks * ratio.den ≥ ratio.num * maxTokens

/-- Modelled from the spec: the Context Compressor's state — the owned
conversation buffer, the `ContextInfo` bookkeeping of `state.py`, and the
state-machine mode (sections 3 and 4.2). -/
structure Compressor where
  buffer : List Turn
  info : ContextInfo
  mode : CompressorMode
deriving DecidableEq, Repr

/-- Outcome of a `compress()` call: `noop` (nothing eligible), `ok`
(buffer replaced, back to NORMAL), `overAfter` (buffer replaced but the
trigger is still exceeded — the non-recursing DEGRADED outcome of
section 4.2), `failed` (collaborator failure, buffer untouched,
DEGRADED). -/
inductive CompressStatus where
  | noop
  | ok
  | overAfter
  | failed
deriving DecidableEq, Repr

/-- A status reporting that a compression event actually replaced the
buffer. -/
def CompressStatus.isEvent : CompressStatus → Bool
  | .ok => true
  | .overAfter => true
  | _ => false

/-- Concatenated content of the head handed to the summarization
collaborator; a prior summary turn sits at the front of the head, so its
text is included (cumulative strategy of section 4.2). -/
def headContent (head : List Turn) : String :=
  String.intercalate "\n" (head.map Turn.content)

/-- Modelled from the spec: `compress()` (section 4.2).  If
`len(buffer) <= preserved_messages` it is a no-op.  Otherwise the buffer
is partitioned into head and tail (last `preserved_messages` turns
verbatim) and the summarization collaborator `summarize` is invoked on the
head's concatenated content; `none` models collaborator failure or
timeout.  On failure the buffer is left unmodified and the mode becomes
DEGRADED; on success the buffer is atomically replaced by the synthetic
summary turn followed by the tail, `summary_count` is incremented,
`last_summary` and `current_tokens` are recomputed, and the mode returns
to NORMAL — unless the trigger is still exceeded, in which case the call
does not recurse and reports the DEGRADED `overAfter` outcome. -/
def compressOp (cost : Turn → Nat) (ratio : TriggerRatio)
    (summarize : String → Option String) (c : Compressor) :
    Compressor × CompressStatus :=
  if c.buffer.length ≤ c.info.preserved_messages then (c, CompressStatus.noop)
  else
    let cut := c.buffer.length - c.info.preserved_messages
    let tail := c.buffer.drop cut
    match summarize (headContent (c.buffer.take cut)) with
    | none => ({ c with mode := CompressorMode.DEGRADED }, CompressStatus.failed)
    | some s =>
      let newBuf := Turn.mk summaryRole s :: tail
      let toks := measureTokens cost newBuf
      let stillOver := triggerExceeded ratio toks c.info.max_tokens
      ({ buffer := newBuf
         info := { c.info with
                   current_tokens := toks
                   summary_count := c.info.summary_count + 1
                   last_summary := some s }
         mode := if stillOver then CompressorMode.DEGRADED else CompressorMode.NORMAL },
       if stillOver then CompressStatus.overAfter else CompressStatus.ok)

/-- Modelled from the spec: `append(turn)` (sections 4.2 and 5).  A call
observed while the buffer is COMPRESSING fails fast
(`ConcurrentMutationError`, modelled as `none`; the documented design
choice).  Otherwise the turn is appended, `current_tokens` is recomputed
by the Token Accountant, and when the trigger ratio of the ceiling is
reached `compress()` runs synchronously before the call returns. -/
def appendOp (cost : Turn → Nat) (ratio : TriggerRatio)
    (summarize : String → Option String) (t : Turn) (c : Compressor) :
    Option (Compressor × CompressStatus) :=
  match c.mode with
  | CompressorMode.COMPRESSING => none
  | _ =>
    let buf := c.buffer ++ [t]
    let toks := measureTokens cost buf
    let c1 : Compressor :=
      { buffer := buf, info := { c.info with current_tokens := toks }, mode := c.mode }
    if triggerExceeded ratio toks c.info.max_tokens then
      some (compressOp cost ratio summarize c1)
    else some (c1, CompressStatus.noop)

/-- An external call on the buffer: an append (with the summarizer a
triggered compression would use) or an explicit compression. -/
inductive AgentOp where
  | append (t : Turn) (summarize : String → Option String)
  | compress (summarize : String → Option String)

/-- One external call; a failed append (`ConcurrentMutationError`) leaves
the state unchanged. -/
def stepOp (cost : Turn → Nat) (ratio : TriggerRatio) (c : Compressor) :
    AgentOp → Compressor
  | AgentOp.append t f =>
    match appendOp cost ratio f t c with
    | some r => r.1
    | none => c
  | AgentOp.compress f => (compressOp cost ratio f c).1

/-- A sequence of external calls. -/
def runOps (cost : Turn → Nat) (ratio : TriggerRatio) (c : Compressor) :
    List AgentOp → Compressor
  | [] => c
  | op :: rest => runOps cost ratio (stepOp cost ratio c op) rest

/-- Invariant 1 of the spec: `current_tokens` equals the measured cost of
the buffer. -/
def TokenInv (cost : Turn → Nat) (c : Compressor) : Prop :=
  c.info.current_tokens = measureTokens cost c.buffer

/-! ## Claims about `state.py` -/

/-- C6: the configuration defaults recognized by the core — a
`ContextInfo` constructed with no arguments has `max_tokens = 200000` and
`preserved_messages = 5` (and derived fields zeroed), and `CONSTANTS`
carries `MAX_CONTEXT_TOKENS = 200000`, `CONTEXT_SUMMARY_TRIGGER = 0.85`
and `PRESERVED_MESSAGES = 5`. -/
theorem context_defaults_and_constants :
    ({} : ContextInfo).max_tokens = 200000 ∧
    ({} : ContextInfo).preserved_messages = 5 ∧
    ({} : ContextInfo).current_tokens = 0 ∧
    CONSTANTS.MAX_CONTEXT_TOKENS = 200000 ∧
    CONSTANTS.CONTEXT_SUMMARY_TRIGGER = 85 / 100 ∧
    CONSTANTS.PRESERVED_MESSAGES = 5 :=
  ⟨rfl, rfl, rfl, rfl, rfl, rfl⟩

/-- C5 (counterexample): the state created by `create_initial_state` does
not have an empty messages sequence — at a concrete input the freshly
created state already holds a greeting turn, contradicting "the messages
sequence of the freshly created state contains zero turns". -/
theorem initial_state_messages_not_empty :
    (create_initial_state "trace-1" "sess-1" "2026-01-01T00:00:00"
      "https://github.com/octocat/hello" AnalysisType.SUMMARY).messages.length ≠ 0 := by
  decide

/-- C5 (amended): for every input to session initialization, the messages
sequence of the freshly created state contains exactly one turn — the
greeting `HumanMessage` naming the repository URL; further turns enter
only through later appends. -/
theorem initial_state_messages_singleton (uuidTrace uuidSession now repo_url : String)
    (analysis_type : AnalysisType) (custom_prompt session_id : Option String) :
    (create_initial_state uuidTrace uuidSession now repo_url analysis_type
        custom_prompt session_id).messages =
      [BaseMessage.human ("مرحباً! أريد تحليل مستودع GitHub: " ++ repo_url)] :=
  rfl

/-- C10: `update_state_status` modifies only the `status` key and, when
`step` is a non-empty string, the `current_step` key; every other key of
the state is unchanged, and with `step = ""` the `current_step` key is
also unchanged. -/
theorem update_state_status_frame (s : AgentState) (ns : AnalysisStatus)
    (step : String) :
    (update_state_status s ns step).status = some ns ∧
    (update_state_status s ns step).current_step =
      (if step = "" then s.current_step else some step) ∧
    (update_state_status s ns step).messages = s.messages ∧
    (update_state_status s ns step).repository = s.repository ∧
    (update_state_status s ns step).analysis_type = s.analysis_type ∧
    (update_state_status s ns step).custom_prompt = s.custom_prompt ∧
    (update_state_status s ns step).context = s.context ∧
    (update_state_status s ns step).result = s.result ∧
    (update_state_status s ns step).metadata = s.metadata ∧
    (update_state_status s ns step).trace_id = s.trace_id ∧
    (update_state_status s ns step).session_id = s.session_id := by
  unfold update_state_status
  by_cases h : step = "" <;> simp [h]

/-! ## Claims about `validators.py` -/

/-- C9: `validate_analysis_type` returns the lower-cased argument exactly
when the argument is a non-empty string whose lower-cased form is one of
the five valid types; for every other input — the empty string and `None`
included — it raises `ValueError` (the model's single error channel) and
nothing else. -/
theorem validate_analysis_type_spec (a : Option String) :
    (∃ t, a = some t ∧ t ≠ "" ∧ valid_types.contains (pyLowerAscii t) = true ∧
      validate_analysis_type a = Except.ok (pyLowerAscii t)) ∨
    (validate_analysis_type a = Except.error (analysisTypeError (a.getD "None")) ∧
      ∀ r, validate_analysis_type a ≠ Except.ok r) := by
  cases a with
  | none => exact Or.inr ⟨rfl, by simp [validate_analysis_type]⟩
  | some s =>
    by_cases hs : s = ""
    · subst hs
      exact Or.inr ⟨by simp [validate_analysis_type], by simp [validate_analysis_type]⟩
    · by_cases hc : valid_types.contains (pyLowerAscii s) = true
      · have hm : pyLowerAscii s ∈ valid_types := by simpa using hc
        exact Or.inl ⟨s, rfl, hs, hc, by simp [validate_analysis_type, hs, hm]⟩
      · have hm : pyLowerAscii s ∉ valid_types := by simpa using hc
        refine Or.inr ⟨?_, ?_⟩
        · simp [validate_analysis_type, hs, hm]
        · intro r
          simp [validate_analysis_type, hs, hm]

/-! ## Helper lemmas about the compressor -/

/-- `compress()` on a buffer no longer than `preserved_messages` is the
identity with a `noop` status. -/
theorem compressOp_noop (cost : Turn → Nat) (ratio : TriggerRatio)
    (f : String → Option String) (c : Compressor)
    (h : c.buffer.length ≤ c.info.preserved_messages) :
    compressOp cost ratio f c = (c, CompressStatus.noop) := by
  unfold compressOp
  rw [if_pos h]

/-- Equation for `compress()` when the collaborator fails: the buffer and
info are untouched, the mode degrades. -/
theorem compressOp_failed_eq (cost : Turn → Nat) (ratio : TriggerRatio)
    (f : String → Option String) (c : Compressor)
    (hle : ¬ c.buffer.length ≤ c.info.preserved_messages)
    (hf : f (headContent (c.buffer.take
        (c.buffer.length - c.info.preserved_messages))) = none) :
    compressOp cost ratio f c =
      ({ c with mode := CompressorMode.DEGRADED }, CompressStatus.failed) := by
  unfold compressOp
  rw [if_neg hle]
  dsimp only
  rw [hf]

/-- Equation for `compress()` when the collaborator returns a summary. -/
theorem compressOp_success_eq (cost : Turn → Nat) (ratio : TriggerRatio)
    (f : String → Option String) (c : Compressor) (s : String)
    (hle : ¬ c.buffer.length ≤ c.info.preserved_messages)
    (hf : f (headContent (c.buffer.take
        (c.buffer.length - c.info.preserved_messages))) = some s) :
    compressOp cost ratio f c =
      ({ buffer := Turn.mk summaryRole s ::
           c.buffer.drop (c.buffer.length - c.info.preserved_messages)
         info := { c.info with
                   current_tokens := measureTokens cost (Turn.mk summaryRole s ::
                     c.buffer.drop (c.buffer.length - c.info.preserved_messages))
                   summary_count := c.info.summary_count + 1
                   last_summary := some s }
         mode := if triggerExceeded ratio
                     (measureTokens cost (Turn.mk summaryRole s ::
                       c.buffer.drop (c.buffer.length - c.info.preserved_messages)))
                     c.info.max_tokens
                 then CompressorMode.DEGRADED else CompressorMode.NORMAL },
       if triggerExceeded ratio
           (measureTokens cost (Turn.mk summaryRole s ::
             c.buffer.drop (c.buffer.length - c.info.preserved_messages)))
           c.info.max_tokens
       then CompressStatus.overAfter else CompressStatus.ok) := by
  unfold compressOp
  rw [if_neg hle]
  dsimp only
  rw [hf]

/-- `summary_count` after `compress()` grows by one exactly when a
compression event happened. -/
theorem compressOp_summary_count (cost : Turn → Nat) (ratio : TriggerRatio)
    (f : String → Option String) (c : Compressor) :
    ((compressOp cost ratio f c).1).info.summary_count =
      c.info.summary_count +
        (if ((compressOp cost ratio f c).2).isEvent then 1 else 0) := by
  by_cases hle : c.buffer.length ≤ c.info.preserved_messages
  · rw [compressOp_noop cost ratio f c hle]
    simp [CompressStatus.isEvent]
  · cases hf : f (headContent (c.buffer.take
        (c.buffer.length - c.info.preserved_messages))) with
    | none =>
      rw [compressOp_failed_eq cost ratio f c hle hf]
      simp [CompressStatus.isEvent]
    | some s =>
      rw [compressOp_success_eq cost ratio f c s hle hf]
      by_cases hso : triggerExceeded ratio
          (measureTokens cost (Turn.mk summaryRole s ::
            c.buffer.drop (c.buffer.length - c.info.preserved_messages)))
          c.info.max_tokens = true
      · simp [hso, CompressStatus.isEvent]
      · simp [hso, CompressStatus.isEvent]

/-- `append()` reports its triggered compression through its status;
`summary_count` grows by one exactly when that status is an event. -/
theorem appendOp_summary_count (cost : Turn → Nat) (ratio : TriggerRatio)
    (f : String → Option String) (t : Turn) (c c' : Compressor)
    (st : CompressStatus) (h : appendOp cost ratio f t c = some (c', st)) :
    c'.info.summary_count =
      c.info.summary_count + (if st.isEvent then 1 else 0) := by
  unfold appendOp at h
  rcases c with ⟨buf, info, mode⟩
  cases mode with
  | COMPRESSING => exact absurd h (by simp)
  | NORMAL =>
    dsimp only at h
    split at h
    · rcases h₂ : compressOp cost ratio f
        { buffer := buf ++ [t],
          info := { info with current_tokens := measureTokens cost (buf ++ [t]) },
          mode := CompressorMode.NORMAL } with ⟨d, std⟩
      rw [h₂] at h
      cases h
      have := compressOp_summary_count cost ratio f
        { buffer := buf ++ [t],
          info := { info with current_tokens := measureTokens cost (buf ++ [t]) },
          mode := CompressorMode.NORMAL }
      rw [h₂] at this
      simpa using this
    · cases h
      simp [CompressStatus.isEvent]
  | DEGRADED =>
    dsimp only at h
    split at h
    · rcases h₂ : compressOp cost ratio f
        { buffer := buf ++ [t],
          info := { info with current_tokens := measureTokens cost (buf ++ [t]) },
          mode := CompressorMode.DEGRADED } with ⟨d, std⟩
      rw [h₂] at h
      cases h
      have := compressOp_summary_count cost ratio f
        { buffer := buf ++ [t],
          info := { info with current_tokens := measureTokens cost (buf ++ [t]) },
          mode := CompressorMode.DEGRADED }
      rw [h₂] at this
      simpa using this
    · cases h
      simp [CompressStatus.isEvent]

/-- One external call never decreases `summary_count`. -/
theorem stepOp_summary_count_le (cost : Turn → Nat) (ratio : TriggerRatio)
    (c : Compressor) (op : AgentOp) :
    c.info.summary_count ≤ (stepOp cost ratio c op).info.summary_count := by
  cases op with
  | append t f =>
    unfold stepOp
    dsimp only
    cases h : appendOp cost ratio f t c with
    | none => exact Nat.le_refl _
    | some r =>
      have := appendOp_summary_count cost ratio f t c r.1 r.2 (by rw [h, Prod.mk.eta])
      dsimp only
      omega
  | compress f =>
    have := compressOp_summary_count cost ratio f c
    unfold stepOp
    dsimp only
    omega

/-- A sequence of external calls never decreases `summary_count`. -/
theorem runOps_summary_count_le (cost : Turn → Nat) (ratio : TriggerRatio)
    (c : Compressor) (ops : List AgentOp) :
    c.info.summary_count ≤ (runOps cost ratio c ops).info.summary_count := by
  induction ops generalizing c with
  | nil => exact Nat.le_refl _
  | cons op rest ih =>
    exact Nat.le_trans (stepOp_summary_count_le cost ratio c op)
      (ih (stepOp cost ratio c op))

/-! ## Claims about the compression subsystem -/

/-- C7: across every sequence of operations `summary_count` never
decreases, and each call changes it by exactly one when it performs a
successful compression and by zero otherwise. -/
theorem summary_count_monotone_and_exact (cost : Turn → Nat) (ratio : TriggerRatio) :
    (∀ c ops, c.info.summary_count ≤ (runOps cost ratio c ops).info.summary_count) ∧
    (∀ f c, ((compressOp cost ratio f c).1).info.summary_count =
      c.info.summary_count +
        (if ((compressOp cost ratio f c).2).isEvent then 1 else 0)) ∧
    (∀ f t c c' st, appendOp cost ratio f t c = some (c', st) →
      c'.info.summary_count =
        c.info.summary_count + (if st.isEvent then 1 else 0)) :=
  ⟨fun c ops => runOps_summary_count_le cost ratio c ops,
   fun f c => compressOp_summary_count cost ratio f c,
   fun f t c c' st h => appendOp_summary_count cost ratio f t c c' st h⟩

/-- Shared concrete fixtures for witnesses and counterexamples. -/
def costFix : Turn → Nat := fun t => t.content.length

/-- A half trigger ratio. -/
def ratioFix : TriggerRatio := { num := 1, den := 2 }

/-- A summarizer that echoes its input. -/
def echoSummarize : String → Option String := fun s => some s

/-- A summarizer that always fails. -/
def failSummarize : String → Option String := fun _ => none

/-- A two-turn buffer keeping one preserved message, far below the
ceiling. -/
def compFix : Compressor :=
  { buffer := [Turn.mk "user" "aaaa", Turn.mk "assistant" "bbbb"]
    info := { current_tokens := 8, max_tokens := 1000, summary_count := 0,
              last_summary := none, preserved_messages := 1 }
    mode := CompressorMode.NORMAL }

/-- Witness for C7 at concrete inputs: a compression event on `compFix`
raises `summary_count` from 0, an append without trigger keeps it, and a
run of both calls never lowers it. -/
theorem summary_count_monotone_and_exact_witness :
    ((compressOp costFix ratioFix echoSummarize compFix).1).info.summary_count =
      compFix.info.summary_count +
        (if ((compressOp costFix ratioFix echoSummarize compFix).2).isEvent
         then 1 else 0) ∧
    compFix.info.summary_count ≤
      (runOps costFix ratioFix compFix
        [AgentOp.compress echoSummarize,
         AgentOp.append (Turn.mk "user" "cc") echoSummarize]).info.summary_count ∧
    appendOp costFix ratioFix echoSummarize (Turn.mk "user" "cc") compFix =
      some ({ buffer := compFix.buffer ++ [Turn.mk "user" "cc"]
              info := { compFix.info with current_tokens := 10 }
              mode := CompressorMode.NORMAL }, CompressStatus.noop) ∧
    ({ buffer := compFix.buffer ++ [Turn.mk "user" "cc"]
       info := { compFix.info with current_tokens := 10 }
       mode := CompressorMode.NORMAL } : Compressor).info.summary_count =
      compFix.info.summary_count + (if CompressStatus.noop.isEvent then 1 else 0) :=
  ⟨(summary_count_monotone_and_exact costFix ratioFix).2.1 echoSummarize compFix,
   (summary_count_monotone_and_exact costFix ratioFix).1 compFix
     [AgentOp.compress echoSummarize,
      AgentOp.append (Turn.mk "user" "cc") echoSummarize],
   by decide,
   (summary_count_monotone_and_exact costFix ratioFix).2.2 echoSummarize
     (Turn.mk "user" "cc") compFix _ CompressStatus.noop (by decide)⟩

/-- C1: after any successful compression the buffer holds exactly
`1 + preserved_messages` turns — one synthetic summary turn followed by
the last `preserved_messages` turns of the old buffer verbatim. -/
theorem compress_event_buffer_shape (cost : Turn → Nat) (ratio : TriggerRatio)
    (f : String → Option String) (c c' : Compressor) (st : CompressStatus)
    (h : compressOp cost ratio f c = (c', st)) (hev : st.isEvent = true) :
    c'.buffer.length = 1 + c'.info.preserved_messages ∧
    c'.info.preserved_messages = c.info.preserved_messages ∧
    ∃ s, c'.buffer = Turn.mk summaryRole s ::
      c.buffer.drop (c.buffer.length - c.info.preserved_messages) := by
  by_cases hle : c.buffer.length ≤ c.info.preserved_messages
  · rw [compressOp_noop cost ratio f c hle] at h
    injection h with h1 h2
    subst h2
    exact absurd hev (by decide)
  · cases hf : f (headContent (c.buffer.take
        (c.buffer.length - c.info.preserved_messages))) with
    | none =>
      rw [compressOp_failed_eq cost ratio f c hle hf] at h
      injection h with h1 h2
      subst h2
      exact absurd hev (by decide)
    | some s =>
      rw [compressOp_success_eq cost ratio f c s hle hf] at h
      injection h with h1 h2
      subst h1
      refine ⟨?_, rfl, ⟨s, rfl⟩⟩
      simp only [List.length_cons, List.length_drop]
      omega

/-- Witness for C1: on the concrete two-turn buffer the compression event
happens and the buffer afterwards has `1 + preserved_messages = 2`
turns. -/
theorem compress_event_buffer_shape_witness :
    ((compressOp costFix ratioFix echoSummarize compFix).2).isEvent = true ∧
    ((compressOp costFix ratioFix echoSummarize compFix).1).buffer.length =
      1 + ((compressOp costFix ratioFix echoSummarize compFix).1).info.preserved_messages :=
  ⟨by decide,
   (compress_event_buffer_shape costFix ratioFix echoSummarize compFix _ _
      Prod.mk.eta.symm (by decide)).1⟩

/-- C2: if the summarization collaborator is invoked by `compress()` and
fails, the buffer's content (hence size) and whole `ContextInfo` are left
unchanged, the call reports the failed/DEGRADED outcome, and any
subsequent `append` still succeeds — the buffer is not stuck in
COMPRESSING. -/
theorem compress_failure_all_or_nothing (cost : Turn → Nat) (ratio : TriggerRatio)
    (f : String → Option String) (c : Compressor)
    (hlen : c.info.preserved_messages < c.buffer.length)
    (hf : f (headContent (c.buffer.take
        (c.buffer.length - c.info.preserved_messages))) = none) :
    (compressOp cost ratio f c).1.buffer = c.buffer ∧
    (compressOp cost ratio f c).1.info = c.info ∧
    (compressOp cost ratio f c).2 = CompressStatus.failed ∧
    (compressOp cost ratio f c).1.mode = CompressorMode.DEGRADED ∧
    ∀ t g, (appendOp cost ratio g t (compressOp cost ratio f c).1).isSome = true := by
  have heq := compressOp_failed_eq cost ratio f c (by omega) hf
  rw [heq]
  refine ⟨rfl, rfl, rfl, rfl, ?_⟩
  intro t g
  unfold appendOp
  dsimp only
  split <;> rfl

/-- Witness for C2: the always-failing summarizer on the concrete buffer
leaves it untouched, degrades, and a concrete later append succeeds. -/
theorem compress_failure_all_or_nothing_witness :
    compFix.info.preserved_messages < compFix.buffer.length ∧
    (compressOp costFix ratioFix failSummarize compFix).1.buffer = compFix.buffer ∧
    (compressOp costFix ratioFix failSummarize compFix).1.info = compFix.info ∧
    (compressOp costFix ratioFix failSummarize compFix).2 = CompressStatus.failed ∧
    (appendOp costFix ratioFix echoSummarize (Turn.mk "user" "cc")
      (compressOp costFix ratioFix failSummarize compFix).1).isSome = true :=
  ⟨by decide,
   (compress_failure_all_or_nothing costFix ratioFix failSummarize compFix
      (by decide) rfl).1,
   (compress_failure_all_or_nothing costFix ratioFix failSummarize compFix
      (by decide) rfl).2.1,
   (compress_failure_all_or_nothing costFix ratioFix failSummarize compFix
      (by decide) rfl).2.2.1,
   (compress_failure_all_or_nothing costFix ratioFix failSummarize compFix
      (by decide) rfl).2.2.2.2 (Turn.mk "user" "cc") echoSummarize⟩

/-- C4 (counterexample): compression is not idempotent — on a concrete
buffer a first `compress()` succeeds, leaving `1 + preserved_messages >
preserved_messages` turns, so a second `compress()` with no appends in
between compresses again and the state after the second call differs from
the state after the first (`summary_count` 2 against 1). -/
theorem double_compress_changes_state :
    (compressOp costFix ratioFix echoSummarize
        (compressOp costFix ratioFix echoSummarize compFix).1).1 ≠
      (compressOp costFix ratioFix echoSummarize compFix).1 := by
  decide

/-- C4 (amended): on a buffer with at most `preserved_messages` turns,
`compress()` is a no-op leaving the whole state (buffer and
`current_tokens` included) unchanged, and on such a buffer a second
`compress()` in a row leaves the state after the second call equal to the
state after the first. -/
theorem compress_short_buffer_noop (cost : Turn → Nat) (ratio : TriggerRatio)
    (f : String → Option String) (c : Compressor)
    (h : c.buffer.length ≤ c.info.preserved_messages) :
    compressOp cost ratio f c = (c, CompressStatus.noop) ∧
    (compressOp cost ratio f (compressOp cost ratio f c).1).1 =
      (compressOp cost ratio f c).1 := by
  have h1 := compressOp_noop cost ratio f c h
  exact ⟨h1, by simp [h1]⟩

/-- A one-turn buffer with the default five preserved messages. -/
def shortFix : Compressor :=
  { buffer := [Turn.mk "user" "aaaa"]
    info := { current_tokens := 4, max_tokens := 1000, summary_count := 0,
              last_summary := none, preserved_messages := 5 }
    mode := CompressorMode.NORMAL }

/-- Witness for C4 (amended): the one-turn buffer with five preserved
messages is left untouched by `compress()`. -/
theorem compress_short_buffer_noop_witness :
    shortFix.buffer.length ≤ shortFix.info.preserved_messages ∧
    compressOp costFix ratioFix echoSummarize shortFix =
      (shortFix, CompressStatus.noop) :=
  ⟨by decide,
   (compress_short_buffer_noop costFix ratioFix echoSummarize shortFix (by decide)).1⟩

/-- `compress()` preserves invariant 1. -/
theorem compressOp_token_inv (cost : Turn → Nat) (ratio : TriggerRatio)
    (f : String → Option String) (c : Compressor) (h : TokenInv cost c) :
    TokenInv cost (compressOp cost ratio f c).1 := by
  by_cases hle : c.buffer.length ≤ c.info.preserved_messages
  · rw [compressOp_noop cost ratio f c hle]
    exact h
  · cases hf : f (headContent (c.buffer.take
        (c.buffer.length - c.info.preserved_messages))) with
    | none =>
      rw [compressOp_failed_eq cost ratio f c hle hf]
      exact h
    | some s =>
      rw [compressOp_success_eq cost ratio f c s hle hf]
      rfl

/-- A completed `append()` re-establishes invariant 1 outright: it
recomputes `current_tokens` from the whole buffer via the Token
Accountant. -/
theorem appendOp_token_inv (cost : Turn → Nat) (ratio : TriggerRatio)
    (f : String → Option String) (t : Turn) (c c' : Compressor)
    (st : CompressStatus) (h : appendOp cost ratio f t c = some (c', st)) :
    TokenInv cost c' := by
  unfold appendOp at h
  rcases c with ⟨buf, info, mode⟩
  cases mode with
  | COMPRESSING => exact absurd h (by simp)
  | NORMAL =>
    dsimp only at h
    split at h
    · injection h with h₂
      have hti := compressOp_token_inv cost ratio f
        { buffer := buf ++ [t],
          info := { info with current_tokens := measureTokens cost (buf ++ [t]) },
          mode := CompressorMode.NORMAL }
        (by unfold TokenInv; rfl)
      rw [h₂] at hti
      exact hti
    · injection h with h₂
      injection h₂ with hA hB
      subst hA
      unfold TokenInv
      rfl
  | DEGRADED =>
    dsimp only at h
    split at h
    · injection h with h₂
      have hti := compressOp_token_inv cost ratio f
        { buffer := buf ++ [t],
          info := { info with current_tokens := measureTokens cost (buf ++ [t]) },
          mode := CompressorMode.DEGRADED }
        (by unfold TokenInv; rfl)
      rw [h₂] at hti
      exact hti
    · injection h with h₂
      injection h₂ with hA hB
      subst hA
      unfold TokenInv
      rfl

/-- One external call preserves invariant 1. -/
theorem stepOp_token_inv (cost : Turn → Nat) (ratio : TriggerRatio)
    (c : Compressor) (op : AgentOp) (h : TokenInv cost c) :
    TokenInv cost (stepOp cost ratio c op) := by
  cases op with
  | compress f => exact compressOp_token_inv cost ratio f c h
  | append t f =>
    unfold stepOp
    dsimp only
    cases happ : appendOp cost ratio f t c with
    | none => exact h
    | some r =>
      exact appendOp_token_inv cost ratio f t c r.1 r.2 (by rw [happ])

/-- C3 (amended): invariant 1 — `current_tokens` equals the summed token
cost of the buffered turns — is preserved by every sequence of external
calls on the Compressor's buffer; it does not, however, extend to the
state produced by `create_initial_state` (see the counterexample), whose
context reports `current_tokens = 0` while its messages list already
contains a turn of positive cost. -/
theorem token_invariant_preserved (cost : Turn → Nat) (ratio : TriggerRatio)
    (c : Compressor) (ops : List AgentOp) (h : TokenInv cost c) :
    TokenInv cost (runOps cost ratio c ops) := by
  induction ops generalizing c with
  | nil => exact h
  | cons op rest ih => exact ih (stepOp cost ratio c op) (stepOp_token_inv cost ratio c op h)

/-- Witness for C3 (amended): the concrete buffer satisfies invariant 1
and still satisfies it after a concrete compress-then-append run. -/
theorem token_invariant_preserved_witness :
    TokenInv costFix compFix ∧
    TokenInv costFix (runOps costFix ratioFix compFix
      [AgentOp.compress echoSummarize,
       AgentOp.append (Turn.mk "user" "cc") echoSummarize]) :=
  ⟨rfl,
   token_invariant_preserved costFix ratioFix compFix
     [AgentOp.compress echoSummarize,
      AgentOp.append (Turn.mk "user" "cc") echoSummarize] rfl⟩

/-- C3 (counterexample): the state produced by `create_initial_state`
violates the token invariant the claim extends to it — its context has
`current_tokens = 0` although its messages list holds one turn whose token
cost under the Token Accountant's conservative heuristic is positive. -/
theorem initial_state_token_invariant_violated :
    ((create_initial_state "trace-1" "sess-1" "2026-01-01T00:00:00"
        "https://github.com/octocat/hello" AnalysisType.SUMMARY).context.getD
      {}).current_tokens = 0 ∧
    ((create_initial_state "trace-1" "sess-1" "2026-01-01T00:00:00"
        "https://github.com/octocat/hello" AnalysisType.SUMMARY).messages.map
      msgTokenCost).sum ≠ 0 := by
  exact ⟨rfl, by decide⟩

/-- A name accepted by `_is_valid_github_name` is non-empty. -/
theorem valid_name_ne_empty (n : String) (h : is_valid_github_name n = true) :
    n ≠ "" := by
  intro he
  subst he
  simp [is_valid_github_name] at h

/-- Successful field validation pins the parse of the stripped URL: the
netloc is github.com, there are at least two path segments, and the first
two (repo `.git`-stripped) are valid names. -/
theorem fieldValidator_ok_facts (v : String)
    (hok : fieldValidatorGithubUrl v = Except.ok ()) :
    ∃ parsed owner repo0 rest,
      pyUrlparse (pyStrip v) = Except.ok parsed ∧
      splitPath parsed.path = owner :: repo0 :: rest ∧
      is_valid_github_name owner = true ∧
      is_valid_github_name (gitStrip repo0) = true := by
  unfold fieldValidatorGithubUrl at hok
  by_cases hv : v = ""
  · rw [if_pos hv] at hok
    exact absurd hok (by simp)
  · rw [if_neg hv] at hok
    cases hpu : pyUrlparse (pyStrip v) with
    | error e => rw [hpu] at hok; exact absurd hok (by simp)
    | ok parsed =>
      rw [hpu] at hok
      dsimp only at hok
      split at hok
      · exact absurd hok (by simp)
      · cases hsp : splitPath parsed.path with
        | nil => rw [hsp] at hok; exact absurd hok (by simp)
        | cons owner tl =>
          cases tl with
          | nil => rw [hsp] at hok; exact absurd hok (by simp)
          | cons repo0 rest =>
            rw [hsp] at hok
            dsimp only at hok
            split at hok
            · exact absurd hok (by simp)
            · split at hok
              · exact absurd hok (by simp)
              · rename_i ho hr
                refine ⟨parsed, owner, repo0, rest, rfl, hsp, ?_, ?_⟩
                · simpa using ho
                · simpa using hr

/-- C8 (amended): for every input without surrounding Python whitespace,
`validate_github_url` either raises `ValueError` or returns a 3-tuple
`(url, owner, repo)` in which `url` equals the input and `owner` and
`repo` are non-empty names accepted by `_is_valid_github_name`; and since
a 3-tuple is always truthy, whenever validation returns, the invalid-URL
error branch in `GitHubAnalyzerAgent.analyze_repository` is not taken.
(The whitespace proviso is forced by the counterexample: with trailing
whitespace the `model_post_init` re-parse differs from the validated
stripped parse.) -/
theorem validate_github_url_sound (s u o r : String) (hs : pyStrip s = s)
    (h : validate_github_url s = Except.ok (u, o, r)) :
    u = s ∧ o ≠ "" ∧ r ≠ "" ∧
    is_valid_github_name o = true ∧ is_valid_github_name r = true ∧
    analyzeRepositoryUrlCheck s = Except.ok (u, o, r) := by
  unfold validate_github_url at h
  cases hf : fieldValidatorGithubUrl s with
  | error e => rw [hf] at h; exact absurd h (by simp)
  | ok unitVal =>
    rw [hf] at h
    dsimp only at h
    obtain ⟨parsed, owner, repo0, rest, hpu, hsp, hvo, hvr⟩ :=
      fieldValidator_ok_facts s hf
    rw [hs] at hpu
    have hpi : modelPostInit s = Except.ok (owner, gitStrip repo0) := by
      unfold modelPostInit
      rw [hpu]
      dsimp only
      rw [hsp]
    rw [hpi] at h
    dsimp only at h
    injection h with h'
    injection h' with h1 h2
    injection h2 with h2a h2b
    subst h1
    subst h2a
    subst h2b
    refine ⟨rfl, valid_name_ne_empty owner hvo, valid_name_ne_empty _ hvr,
      hvo, hvr, ?_⟩
    unfold analyzeRepositoryUrlCheck
    have hv : validate_github_url s = Except.ok (s, owner, gitStrip repo0) := by
      unfold validate_github_url
      rw [hf]
      dsimp only
      rw [hpi]
    rw [hv]
    rfl

/-- Witness for C8 (amended) at a concrete whitespace-free URL. -/
theorem validate_github_url_sound_witness :
    pyStrip "https://github.com/user/repo" = "https://github.com/user/repo" ∧
    validate_github_url "https://github.com/user/repo" =
      Except.ok ("https://github.com/user/repo", "user", "repo") ∧
    is_valid_github_name "user" = true ∧
    analyzeRepositoryUrlCheck "https://github.com/user/repo" =
      Except.ok ("https://github.com/user/repo", "user", "repo") :=
  ⟨rfl, rfl,
   (validate_github_url_sound "https://github.com/user/repo"
      "https://github.com/user/repo" "user" "repo" rfl rfl).2.2.2.1,
   (validate_github_url_sound "https://github.com/user/repo"
      "https://github.com/user/repo" "user" "repo" rfl rfl).2.2.2.2.2⟩

/-- C8 (counterexample): on the explicit input
`"https://github.com/user/repo "` (trailing space) `validate_github_url`
returns without raising, yet the returned repo component `"repo "` is not
accepted by `_is_valid_github_name` — the field validator checks the names
parsed from the stripped URL while `model_post_init` re-parses the
unstripped one. -/
theorem validate_github_url_trailing_space_unsound :
    validate_github_url "https://github.com/user/repo " =
      Except.ok ("https://github.com/user/repo ", "user", "repo ") ∧
    is_valid_github_name "repo " = false :=
  ⟨rfl, rfl⟩
